import Mathlib

/-!
# Verification of the Patient Management backend (`src/main.py`)

Shallow embedding of the validation/mapping core of the FastAPI backend that
proxies patient CRUD operations to a FHIR server.  Python dictionaries with a
known key set are embedded as Lean structures with `Option` fields (a `none`
field stands for an absent key or a JSON `null` — the code only ever reads
them through `dict.get`, which conflates the two); lists stay lists; Python's
truthiness tests on strings and lists are modelled explicitly.  The HTTP layer
is embedded by passing the remote server's answer as an explicit
`RemoteResult` value and returning the body of the mutating call (when one is
issued) in an `Except` result.
-/

namespace PatientApp

/-- A telecom entry of a FHIR Patient resource: a `system`/`value` pair
(`Telecom` in `main.py`, and the dictionaries handled by the merge and by
`extract_patient_summary`). -/
structure TelecomEntry where
  system : Option String
  value : Option String
  deriving Repr, DecidableEq

/-- A name entry of a FHIR Patient resource (`HumanName` in `main.py`). -/
structure NameEntry where
  use : Option String
  family : Option String
  given : Option (List String)
  deriving Repr, DecidableEq

/-- An identifier entry of a FHIR Patient resource, with the two keys
`extract_patient_summary` reads. -/
structure IdentifierEntry where
  value : Option String
  id : Option String
  deriving Repr, DecidableEq

/-- The `meta` sub-object of a FHIR resource, with the one key the code
reads. -/
structure MetaObj where
  lastUpdated : Option String
  deriving Repr, DecidableEq

/-- A FHIR Patient resource as the code manipulates it: the keys read or
written by `build_patient_resource`, `extract_patient_summary` and the update
merge, plus `extra` standing for every other attribute of the JSON object,
which the code never touches. -/
structure Patient where
  resourceType : Option String
  id : Option String
  identifier : Option (List IdentifierEntry)
  name : Option (List NameEntry)
  gender : Option String
  birthDate : Option String
  telecom : Option (List TelecomEntry)
  meta : Option MetaObj
  extra : List (String × String)
  deriving Repr, DecidableEq

/-- The flat `PatientSummary` response model of `main.py`. -/
structure PatientSummary where
  id : String
  identifier : Option String
  given : Option String
  family : Option String
  gender : Option String
  birthDate : Option String
  phone : Option String
  lastUpdated : Option String
  deriving Repr, DecidableEq

/-- The `PatientCreate` request model: pydantic guarantees the four strings
are whitespace-stripped and non-empty and that `phone` is a strict int; those
structural facts appear as hypotheses where a theorem needs them. -/
structure PatientCreate where
  given : String
  family : String
  gender : String
  birthDate : String
  phone : Int
  deriving Repr, DecidableEq

/-- The `PatientUpdate` request model: every field of `PatientCreate`, made
optional.  `phone` is `Optional[conint(strict=True)]`, hence an `Option Int`:
pydantic's strict int admits no string. -/
structure PatientUpdate where
  given : Option String
  family : Option String
  gender : Option String
  birthDate : Option String
  phone : Option Int
  deriving Repr, DecidableEq

/-- Python truthiness of an optional string: `None` and `""` are falsy. -/
def pyTruthyStr (o : Option String) : Bool :=
  match o with
  | none => false
  | some s => s ≠ ""

/-- Python `a or b` on optional strings. -/
def pyOrStr (a b : Option String) : Option String :=
  if pyTruthyStr a then a else b

/-- The code points `str.isspace()` holds of, which `str.strip()` strips:
0x09–0x0D, 0x1C–0x1F, space, NEL, NBSP, Ogham space mark, 0x2000–0x200A,
the line and paragraph separators, narrow NBSP, medium mathematical space
and ideographic space. -/
def pyIsSpace (c : Char) : Bool :=
  let n := c.toNat
  (decide (9 ≤ n) && decide (n ≤ 13)) || (decide (28 ≤ n) && decide (n ≤ 32)) ||
    n == 133 || n == 160 || n == 5760 ||
    (decide (8192 ≤ n) && decide (n ≤ 8202)) || n == 8232 || n == 8233 ||
    n == 8239 || n == 8287 || n == 12288

/-- The whitespace `int()` strips around a numeric literal
(`Py_UNICODE_ISSPACE`): the `str.isspace()` set without the file/group/
record/unit separators 0x1C–0x1F. -/
def pyIntIsSpace (c : Char) : Bool :=
  let n := c.toNat
  (decide (9 ≤ n) && decide (n ≤ 13)) || n == 32 ||
    n == 133 || n == 160 || n == 5760 ||
    (decide (8192 ≤ n) && decide (n ≤ 8202)) || n == 8232 || n == 8233 ||
    n == 8239 || n == 8287 || n == 12288

/-- Drop leading and trailing characters satisfying `p`. -/
def stripWith (p : Char → Bool) (l : List Char) : List Char :=
  ((l.dropWhile p).reverse.dropWhile p).reverse

/-- Python's `str.strip()`. -/
def pyStrip (s : String) : String :=
  ⟨stripWith pyIsSpace s.data⟩

/-- First code points of the runs of ten consecutive Unicode decimal digits
(category Nd, digit values 0–9 in order) that `int()` accepts, per the
Unicode 14.0 tables CPython 3.11 ships; the mathematical alphanumeric block
0x1D7CE–0x1D7FF appears as its five runs. -/
def intDigitRangeStarts : List Nat :=
  [0x30, 0x660, 0x6f0, 0x7c0, 0x966, 0x9e6, 0xa66, 0xae6, 0xb66, 0xbe6,
   0xc66, 0xce6, 0xd66, 0xde6, 0xe50, 0xed0, 0xf20, 0x1040, 0x1090, 0x17e0,
   0x1810, 0x1946, 0x19d0, 0x1a80, 0x1a90, 0x1b50, 0x1bb0, 0x1c40, 0x1c50,
   0xa620, 0xa8d0, 0xa900, 0xa9d0, 0xa9f0, 0xaa50, 0xabf0, 0xff10,
   0x104a0, 0x10d30, 0x11066, 0x110f0, 0x11136, 0x111d0, 0x112f0, 0x11450,
   0x114d0, 0x11650, 0x116c0, 0x11730, 0x118e0, 0x11950, 0x11c50, 0x11d50,
   0x11da0, 0x16a60, 0x16ac0, 0x16b50, 0x1d7ce, 0x1d7d8, 0x1d7e2, 0x1d7ec,
   0x1d7f6, 0x1e140, 0x1e2f0, 0x1e950, 0x1fbf0]

/-- The decimal value of a Unicode digit accepted by `int()`, or none. -/
def pyDigitVal (c : Char) : Option Nat :=
  (intDigitRangeStarts.find?
      (fun s => decide (s ≤ c.toNat) && decide (c.toNat ≤ s + 9))).map
    (fun s => c.toNat - s)

/-- Whether `int()` accepts the character as a decimal digit. -/
def pyIsDigit (c : Char) : Bool :=
  (pyDigitVal c).isSome

/-- Python's `str.lower()` on the ASCII strings this code handles. -/
def pyLower (s : String) : String :=
  ⟨s.data.map Char.toLower⟩

/-- Single-separator split of a character list, as Python's
`str.split(sep)` with a one-character separator: every occurrence cuts,
empty pieces are kept, the empty string yields one empty piece. -/
def pySplitChars (sep : Char) : List Char → List (List Char)
  | [] => [[]]
  | x :: xs =>
    match pySplitChars sep xs with
    | [] => [[]]
    | g :: gs => if x = sep then [] :: g :: gs else (x :: g) :: gs

/-- `birth_date.split("-")` of `main.py`. -/
def pySplitDash (s : String) : List String :=
  (pySplitChars '-' s.data).map (fun l => ⟨l⟩)

/-- Decimal value of a run of `int()`-digits. -/
def digitsToNat (ds : List Char) : Nat :=
  ds.foldl (fun acc c => acc * 10 + (pyDigitVal c).getD 0) 0

/-- After the first digit of a numeric literal: digits, with single
underscores allowed only between digits (PEP 515). -/
def pyDigitsTail : List Char → Bool
  | [] => true
  | '_' :: rest =>
      match rest with
      | [] => false
      | c :: rest2 => pyIsDigit c && pyDigitsTail rest2
  | c :: rest => pyIsDigit c && pyDigitsTail rest

/-- A whole numeric literal body: non-empty, starts with a digit, then
digits with single interior underscores. -/
def pyDigitRun : List Char → Bool
  | [] => false
  | c :: rest => pyIsDigit c && pyDigitsTail rest

/-- `uniform error response` — the pair FastAPI's `HTTPException` carries. -/
structure HTTPError where
  status : Nat
  detail : String
  deriving Repr, DecidableEq

/-- The input of `extract_patient_summary`: either a bundle-entry wrapper
(a dict carrying a `resource` key) or a bare resource dict. -/
inductive EntryOrResource where
  | entry (resource : Option Patient)
  | bare (r : Patient)
  deriving Repr, DecidableEq

/-- The outcome of one remote HTTP call, as seen by the `fhir_get` /
`fhir_post` / `fhir_put` helpers: a parsed 2xx body, a non-2xx status, or a
transport-level failure (`httpx.RequestError`). -/
inductive RemoteResult (α : Type) where
  | success (v : α)
  | httpError (status : Nat)
  | transportError
  deriving Repr, DecidableEq

/-- The uniform error translation shared by `fhir_get`, `fhir_post` and
`fhir_put` in `main.py`: a 2xx body is returned, a non-2xx response re-raises
with the upstream status code, a transport failure becomes a 502.  (The Python
detail strings embed the exception text; the model keeps a fixed prefix.) -/
def fhir_request_outcome {α : Type} (r : RemoteResult α) : Except HTTPError α :=
  match r with
  | .success v => .ok v
  | .httpError s => .error ⟨s, "FHIR request failed"⟩
  | .transportError => .error ⟨502, "FHIR connection error"⟩

/-- `build_patient_resource` of `main.py`: constructs the nested FHIR shape
from the flat create fields.  `str(phone)` is `toString` on `Int`. -/
def build_patient_resource (given family gender birthDate : String)
    (phone : Option Int) : Patient :=
  { resourceType := some "Patient"
    id := none
    identifier := none
    name := some [{ use := some "official", family := some family, given := some [given] }]
    gender := some (pyLower gender)
    birthDate := some birthDate
    telecom := phone.map (fun p => [{ system := some "phone", value := some (toString p) }])
    meta := none
    extra := [] }

/-- The telecom scan of `extract_patient_summary`: the value of the first
entry whose system is `"phone"` and whose value is truthy. -/
def findPhoneVal : List TelecomEntry → Option String
  | [] => none
  | t :: ts =>
      if t.system = some "phone" ∧ pyTruthyStr t.value then t.value
      else findPhoneVal ts

/-- The body of `extract_patient_summary` once the resource has been
unwrapped: `none` when the resource type tag is not `"Patient"`, the flat
summary otherwise. -/
def extractRes (res : Patient) : Option PatientSummary :=
  if res.resourceType ≠ some "Patient" then none
  else
    let pid := res.id.getD ""
    let identifier :=
      match res.identifier.getD [] with
      | [] => res.id
      | i :: _ => pyOrStr i.value (pyOrStr i.id res.id)
    let (given_val, family_val) :=
      match res.name.getD [] with
      | [] => (none, none)
      | name_obj :: _ =>
          let given_list := name_obj.given.getD []
          let g := given_list.head?.map pyStrip
          let f := pyStrip (name_obj.family.getD "")
          (g, if f = "" then none else some f)
    let phone_val := findPhoneVal (res.telecom.getD [])
    let lastUpdated := res.meta.bind (fun m => m.lastUpdated)
    some { id := pid, identifier := identifier, given := given_val,
           family := family_val, gender := res.gender,
           birthDate := res.birthDate, phone := phone_val,
           lastUpdated := lastUpdated }

/-- `extract_patient_summary` of `main.py`: unwraps a bundle-entry wrapper
(whose `resource` value may be null, a falsy value rejected by the `not res`
guard) or takes a bare resource, then reads the flat summary. -/
def extract_patient_summary : EntryOrResource → Option PatientSummary
  | .entry none => none
  | .entry (some r) => extractRes r
  | .bare r => extractRes r

/-- Python's `int(x)` in base 10: surrounding `int()`-whitespace is ignored,
an optional single ASCII `+` or `-` sign precedes a non-empty run of Unicode
decimal digits with single interior underscores (PEP 515); the value is read
off the digit values with the underscores removed. -/
def pyInt (s : String) : Option Int :=
  match stripWith pyIntIsSpace s.data with
  | '-' :: ds =>
      if pyDigitRun ds then
        some (-(digitsToNat (ds.filter (fun c => c ≠ '_')) : Int))
      else none
  | '+' :: ds =>
      if pyDigitRun ds then
        some (digitsToNat (ds.filter (fun c => c ≠ '_')) : Int)
      else none
  | ds =>
      if pyDigitRun ds then
        some (digitsToNat (ds.filter (fun c => c ≠ '_')) : Int)
      else none

/-- The list comprehension `[int(x) for x in birth_date.split("-")]`: all
parts parse or the whole computation fails. -/
def pyIntList : List String → Option (List Int)
  | [] => some []
  | x :: xs => (pyInt x).bind fun v => (pyIntList xs).map fun vs => v :: vs

/-- Gregorian leap year, as `datetime.date` uses. -/
def isLeapYear (y : Int) : Bool :=
  y % 4 == 0 && (y % 100 != 0 || y % 400 == 0)

/-- Number of days of month `m` of year `y`. -/
def daysInMonth (y m : Int) : Int :=
  if m = 2 then (if isLeapYear y then 29 else 28)
  else if m = 4 ∨ m = 6 ∨ m = 9 ∨ m = 11 then 30
  else 31

/-- The triples `datetime.date(year, month, day)` accepts: year in
`MINYEAR..MAXYEAR`, month `1..12`, day within the month. -/
def validDate (y m d : Int) : Bool :=
  1 ≤ y && y ≤ 9999 && 1 ≤ m && m ≤ 12 && 1 ≤ d && d ≤ daysInMonth y m

/-- A `datetime.date` value; `date.today()` becomes an explicit `today`
parameter of the functions that consult the clock. -/
structure PyDate where
  year : Int
  month : Int
  day : Int
  deriving Repr, DecidableEq

/-- The strict order on dates (`d1 < d2`): lexicographic on
(year, month, day), which agrees with `datetime.date` comparison. -/
def dateLt (a b : PyDate) : Bool :=
  a.year < b.year ||
    (a.year == b.year &&
      (a.month < b.month || (a.month == b.month && a.day < b.day)))

/-- `validate_birthdate_not_future` of `main.py`: split on `"-"`, parse every
part as an int, require exactly three parts and a constructible date — any
failure silently returns — then raise 422 with the fixed message when the
date is strictly after `today`. -/
def validate_birthdate_not_future (today : PyDate) (birth_date : String) :
    Except HTTPError Unit :=
  match pyIntList (pySplitDash birth_date) with
  | none => .ok ()
  | some parts =>
    match parts with
    | [year, month, day] =>
        if validDate year month day then
          if dateLt today ⟨year, month, day⟩ then
            .error ⟨422, "Date of Birth cannot be in the future."⟩
          else .ok ()
        else .ok ()
    | _ => .ok ()

/-- The value of `payload.phone` as the merge code at lines 268–275 of
`main.py` dispatches on it: `None`, the empty string, or anything else.  The
code is written to handle an empty string, so the model keeps that arm. -/
inductive PhoneField where
  | absent
  | emptyStr
  | intVal (p : Int)
  deriving Repr, DecidableEq

/-- The phone of a validated `PatientUpdate` as the merge sees it.  Pydantic's
`conint(strict=True)` admits only ints, and in Python an int never compares
equal to `""`, so a validated payload maps to `absent` or `intVal`, never to
`emptyStr`. -/
def toPhoneField : Option Int → PhoneField
  | none => .absent
  | some p => .intVal p

/-- The default name entry `{}` the merge starts from when the existing
resource has no name. -/
def emptyNameEntry : NameEntry := { use := none, family := none, given := none }

/-- The merge step of `update_patient` (lines 256–275 of `main.py`),
`applyUpdate` in the spec: given/family patch the first name entry (a fresh
`{}` if the name list is absent or empty) and the name list collapses to that
single entry; gender is lowercased; birthDate replaces; phone is three-way on
`PhoneField`. -/
def applyUpdate (existing : Patient) (given family gender birthDate : Option String)
    (phone : PhoneField) : Patient :=
  let r1 :=
    if given.isSome || family.isSome then
      let name_obj :=
        match existing.name with
        | some (n :: _) => n
        | _ => emptyNameEntry
      let name_obj :=
        match given with
        | some g => { name_obj with given := some [g] }
        | none => name_obj
      let name_obj :=
        match family with
        | some f => { name_obj with family := some f }
        | none => name_obj
      { existing with name := some [name_obj] }
    else existing
  let r2 :=
    match gender with
    | some g => { r1 with gender := some (pyLower g) }
    | none => r1
  let r3 :=
    match birthDate with
    | some bd => { r2 with birthDate := some bd }
    | none => r2
  match phone with
  | .absent => r3
  | .emptyStr =>
      let telecom := (r3.telecom.getD []).filter (fun t => t.system ≠ some "phone")
      { r3 with telecom := some telecom }
  | .intVal p =>
      { r3 with telecom := some [{ system := some "phone", value := some (toString p) }] }

/-- `update_patient` of `main.py`, with the two remote calls made explicit:
`fetched` is the outcome of the initial `fhir_get`, and the returned resource
on `.ok` is exactly the body handed to `fhir_put` — the function reaches
`.ok` iff the mutating PUT is issued.  `schemaCheck` abstracts
`validate_resource_against_fhir_schema` (its schema document is a data file
outside the embedded code). -/
def update_patient (today : PyDate) (fetched : RemoteResult (Option Patient))
    (payload : PatientUpdate) (schemaCheck : Patient → Option HTTPError) :
    Except HTTPError Patient :=
  match fhir_request_outcome fetched with
  | .error e => .error e
  | .ok existing =>
    match existing with
    | none => .error ⟨404, "Patient not found"⟩
    | some existing =>
      if existing.resourceType ≠ some "Patient" then
        .error ⟨404, "Patient not found"⟩
      else
        let gate : Except HTTPError Unit :=
          match payload.birthDate with
          | some bd => validate_birthdate_not_future today bd
          | none => .ok ()
        match gate with
        | .error e => .error e
        | .ok _ =>
          let merged := applyUpdate existing payload.given payload.family
            payload.gender payload.birthDate (toPhoneField payload.phone)
          match schemaCheck merged with
          | some e => .error e
          | none => .ok merged

/-- `create_patient` of `main.py`: birthdate gate, resource construction,
schema gate, then the POST whose outcome `remote` provides; the 2xx body is
mapped back to a summary, 500 when unmappable. -/
def create_patient (today : PyDate) (payload : PatientCreate)
    (schemaCheck : Patient → Option HTTPError) (remote : RemoteResult Patient) :
    Except HTTPError PatientSummary :=
  match validate_birthdate_not_future today payload.birthDate with
  | .error e => .error e
  | .ok _ =>
    let resource := build_patient_resource payload.given payload.family
      payload.gender payload.birthDate (some payload.phone)
    match schemaCheck resource with
    | some e => .error e
    | none =>
      match fhir_request_outcome remote with
      | .error e => .error e
      | .ok created =>
        match extract_patient_summary (.bare created) with
        | some s => .ok s
        | none => .error ⟨500, "Failed to create patient"⟩

/-- The process-wide default remote base URL (`FHIR_BASE_URL` with its
hard-coded fallback). -/
def FHIR_BASE_URL : String := "https://fhir-bootcamp.medblocks.com/fhir"

/-- `x or FHIR_BASE_URL` on the per-request override: `None` and `""` fall
back to the default. -/
def resolveBase (o : Option String) : String :=
  if pyTruthyStr o then o.getD FHIR_BASE_URL else FHIR_BASE_URL

/-- A query-parameter value (`_count` is an int, the rest are strings). -/
inductive ParamVal where
  | nat (n : Nat)
  | str (s : String)
  deriving Repr, DecidableEq

/-- A remote search-set response: the bundle's `entry` list (absent key
defaults to `[]`). -/
structure Bundle where
  entry : Option (List EntryOrResource)
  deriving Repr, DecidableEq

/-- The shared mapping loop of `list_patients` and `search_patients`:
each entry through `extract_patient_summary`, dropping the `None`s. -/
def mapBundle (bundle : Bundle) : List PatientSummary :=
  (bundle.entry.getD []).filterMap extract_patient_summary

/-- `list_patients` of `main.py`, returning the resolved base URL, the query
parameters of the remote call, and the summaries mapped from the remote
bundle. -/
def list_patients (fhir_server_url sort : Option String) (bundle : Bundle) :
    String × List (String × ParamVal) × List PatientSummary :=
  let server_url := resolveBase fhir_server_url
  let params :=
    [("_count", ParamVal.nat 15)] ++
      (if pyTruthyStr sort then [("_sort", ParamVal.str (sort.getD ""))] else [])
  (server_url, params, mapBundle bundle)

/-- `search_patients` of `main.py`: like the list, with the three optional
filters forwarded as `name`, `telecom` and `_id` when truthy. -/
def search_patients (name phone identifier fhir_server_url sort : Option String)
    (bundle : Bundle) :
    String × List (String × ParamVal) × List PatientSummary :=
  let params :=
    [("_count", ParamVal.nat 15)] ++
      (if pyTruthyStr name then [("name", ParamVal.str (name.getD ""))] else []) ++
      (if pyTruthyStr phone then [("telecom", ParamVal.str (phone.getD ""))] else []) ++
      (if pyTruthyStr identifier then [("_id", ParamVal.str (identifier.getD ""))] else []) ++
      (if pyTruthyStr sort then [("_sort", ParamVal.str (sort.getD ""))] else [])
  let server_url := resolveBase fhir_server_url
  (server_url, params, mapBundle bundle)

/-! ## Helper lemmas -/

lemma toDigitsCore_len_ge (b : Nat) :
    ∀ (f n : Nat) (l : List Char), l.length ≤ (Nat.toDigitsCore b f n l).length := by
  intro f
  induction f with
  | zero => intro n l; simp [Nat.toDigitsCore]
  | succ f ih =>
    intro n l
    simp only [Nat.toDigitsCore]
    split
    · simp
    · exact Nat.le_trans (Nat.le_succ _) (ih (n / b) (Nat.digitChar (n % b) :: l))

lemma toDigits_ne_nil (n : Nat) : Nat.toDigits 10 n ≠ [] := by
  simp only [Nat.toDigits, Nat.toDigitsCore]
  split
  · simp
  · have h := toDigitsCore_len_ge 10 n (n / 10) [Nat.digitChar (n % 10)]
    intro hnil
    rw [hnil] at h
    simp at h

lemma natRepr_ne_empty (n : Nat) : Nat.repr n ≠ "" := by
  intro h
  apply toDigits_ne_nil n
  have h2 := congrArg String.data h
  simpa [Nat.repr, List.asString] using h2

lemma intToString_ne_empty (p : Int) : toString p ≠ "" := by
  cases p with
  | ofNat m => simpa [toString, Int.repr] using natRepr_ne_empty m
  | negSucc m =>
    intro h
    have h2 : ("-" ++ Nat.repr (m + 1) : String).data = "".data := by
      simpa [toString, Int.repr] using congrArg String.data h
    simp [String.data_append] at h2

lemma pyTruthyStr_toString (p : Int) : pyTruthyStr (some (toString p)) = true := by
  simp [pyTruthyStr, intToString_ne_empty p]

lemma dateLt_irrefl (d : PyDate) : dateLt d d = false := by
  simp [dateLt]

lemma pyIntList_eq_some_three (l : List String) (y m d : Int)
    (h : pyIntList l = some [y, m, d]) :
    ∃ a b c, l = [a, b, c] ∧ pyInt a = some y ∧ pyInt b = some m ∧ pyInt c = some d := by
  match l with
  | [] => simp [pyIntList] at h
  | [a] =>
    simp only [pyIntList, Option.bind_eq_some, Option.map_eq_some'] at h
    obtain ⟨v, _, vs, hvs, hcons⟩ := h
    cases hvs
    simp at hcons
  | [a, b] =>
    simp only [pyIntList, Option.bind_eq_some, Option.map_eq_some'] at h
    obtain ⟨v, _, vs, hvs, hcons⟩ := h
    obtain ⟨w, _, ws, hws, hcons2⟩ := hvs
    cases hws
    cases hcons2
    simp at hcons
  | [a, b, c] =>
    refine ⟨a, b, c, rfl, ?_⟩
    simp only [pyIntList, Option.bind_eq_some, Option.map_eq_some'] at h
    obtain ⟨v, hv, vs, hvs, hcons⟩ := h
    obtain ⟨w, hw, ws, hws, hcons2⟩ := hvs
    obtain ⟨x, hx, xs, hxs, hcons3⟩ := hws
    cases hxs
    cases hcons3
    cases hcons2
    cases hcons
    exact ⟨hv, hw, hx⟩
  | a :: b :: c :: e :: rest =>
    simp only [pyIntList, Option.bind_eq_some, Option.map_eq_some'] at h
    obtain ⟨v, _, vs, hvs, hcons⟩ := h
    obtain ⟨w, _, ws, hws, hcons2⟩ := hvs
    obtain ⟨x, _, xs, hxs, hcons3⟩ := hws
    obtain ⟨u2, _, us, _, hcons4⟩ := hxs
    cases hcons4
    cases hcons3
    cases hcons2
    cases hcons

/-! ## Claim theorems -/

/-- C1: phone handling in the update merge is three-way — an absent phone
leaves the telecom list unchanged, an empty-string phone keeps exactly the
entries whose system is not "phone", and a non-empty phone replaces the
telecom list with the single entry `{system := "phone", value := str(phone)}`,
discarding every other entry. -/
theorem update_phone_merge_three_way (e : Patient) (g f gd bd : Option String) :
    (applyUpdate e g f gd bd .absent).telecom = e.telecom ∧
    (applyUpdate e g f gd bd .emptyStr).telecom =
      some ((e.telecom.getD []).filter (fun t => t.system ≠ some "phone")) ∧
    (∀ p : Int, (applyUpdate e g f gd bd (.intVal p)).telecom =
      some [{ system := some "phone", value := some (toString p) }]) := by
  refine ⟨?_, ?_, fun p => ?_⟩ <;>
    (unfold applyUpdate; cases g <;> cases f <;> cases gd <;> cases bd <;> simp)

/-- C2: a structurally validated update payload carries `phone` as an
optional strict int, never the empty string, so the empty-string removal
branch of the merge is unreachable and no accepted update can remove an
existing phone telecom entry: if the existing resource has a phone entry,
the merged resource still has one. -/
theorem update_phone_removal_unreachable (u : PatientUpdate) (e : Patient) :
    toPhoneField u.phone ≠ .emptyStr ∧
    ((∃ t ∈ e.telecom.getD [], t.system = some "phone") →
      ∃ t ∈ (applyUpdate e u.given u.family u.gender u.birthDate
        (toPhoneField u.phone)).telecom.getD [], t.system = some "phone") := by
  constructor
  · cases hp : u.phone <;> simp [toPhoneField]
  · intro hex
    cases hp : u.phone with
    | none =>
      have htel : (applyUpdate e u.given u.family u.gender u.birthDate
          (toPhoneField none)).telecom = e.telecom := by
        unfold applyUpdate toPhoneField
        cases u.given <;> cases u.family <;> cases u.gender <;> cases u.birthDate <;> simp
      rw [htel]
      exact hex
    | some p =>
      have htel : (applyUpdate e u.given u.family u.gender u.birthDate
          (toPhoneField (some p))).telecom =
          some [{ system := some "phone", value := some (toString p) }] := by
        unfold applyUpdate toPhoneField
        cases u.given <;> cases u.family <;> cases u.gender <;> cases u.birthDate <;> simp
      rw [htel]
      exact ⟨{ system := some "phone", value := some (toString p) }, by simp, rfl⟩

/-- Witness for C2 at a concrete payload and resource carrying a phone
entry. -/
theorem update_phone_removal_unreachable_witness :
    ∃ t ∈ (applyUpdate
        { resourceType := some "Patient", id := some "p1", identifier := none,
          name := none, gender := none, birthDate := none,
          telecom := some [{ system := some "phone", value := some "111" }],
          meta := none, extra := [] }
        none none none none (toPhoneField (some 12345))).telecom.getD [],
      t.system = some "phone" :=
  (update_phone_removal_unreachable
    { given := none, family := none, gender := none, birthDate := none,
      phone := some 12345 }
    { resourceType := some "Patient", id := some "p1", identifier := none,
      name := none, gender := none, birthDate := none,
      telecom := some [{ system := some "phone", value := some "111" }],
      meta := none, extra := [] }).2
    ⟨{ system := some "phone", value := some "111" }, by simp, rfl⟩

/-- C5: every field absent from an update patch leaves the corresponding
field of the merged resource unchanged, and the attributes the merge never
touches (id, meta, resourceType, identifier, every other attribute) are
unchanged for every patch. -/
theorem update_absent_fields_unchanged (e : Patient) (u : PatientUpdate) :
    (u.given = none → u.family = none →
      (applyUpdate e u.given u.family u.gender u.birthDate
        (toPhoneField u.phone)).name = e.name) ∧
    (u.gender = none →
      (applyUpdate e u.given u.family u.gender u.birthDate
        (toPhoneField u.phone)).gender = e.gender) ∧
    (u.birthDate = none →
      (applyUpdate e u.given u.family u.gender u.birthDate
        (toPhoneField u.phone)).birthDate = e.birthDate) ∧
    (u.phone = none →
      (applyUpdate e u.given u.family u.gender u.birthDate
        (toPhoneField u.phone)).telecom = e.telecom) ∧
    (applyUpdate e u.given u.family u.gender u.birthDate
      (toPhoneField u.phone)).id = e.id ∧
    (applyUpdate e u.given u.family u.gender u.birthDate
      (toPhoneField u.phone)).meta = e.meta ∧
    (applyUpdate e u.given u.family u.gender u.birthDate
      (toPhoneField u.phone)).resourceType = e.resourceType ∧
    (applyUpdate e u.given u.family u.gender u.birthDate
      (toPhoneField u.phone)).identifier = e.identifier ∧
    (applyUpdate e u.given u.family u.gender u.birthDate
      (toPhoneField u.phone)).extra = e.extra := by
  unfold applyUpdate toPhoneField
  cases u.given <;> cases u.family <;> cases u.gender <;> cases u.birthDate <;>
    cases u.phone <;> simp

/-- Witness for C5 at the all-absent patch and a concrete resource. -/
theorem update_absent_fields_unchanged_witness :
    (applyUpdate
        { resourceType := some "Patient", id := some "p2", identifier := none,
          name := some [{ use := some "official", family := some "Doe",
                          given := some ["Jo"] }],
          gender := some "female", birthDate := some "1980-05-05",
          telecom := some [{ system := some "email", value := some "a@b.c" }],
          meta := none, extra := [("active", "true")] }
        none none none none (toPhoneField none)).name =
      some [{ use := some "official", family := some "Doe", given := some ["Jo"] }] :=
  (update_absent_fields_unchanged
    { resourceType := some "Patient", id := some "p2", identifier := none,
      name := some [{ use := some "official", family := some "Doe",
                      given := some ["Jo"] }],
      gender := some "female", birthDate := some "1980-05-05",
      telecom := some [{ system := some "email", value := some "a@b.c" }],
      meta := none, extra := [("active", "true")] }
    { given := none, family := none, gender := none, birthDate := none,
      phone := none }).1 rfl rfl

/-- The first name entry of the existing resource, or the fresh empty entry
the merge starts from when none exists — the base entry C6 talks about. -/
def firstNameOrEmpty (e : Patient) : NameEntry :=
  match e.name with
  | some (n :: _) => n
  | _ => emptyNameEntry

/-- C6: whenever given or family is present in the patch, the merged name
list has exactly one entry — the first existing name entry (a fresh one if
none existed) with given and/or family overwritten — so additional name
entries of the existing resource are discarded. -/
theorem update_name_collapses_to_single (e : Patient) (u : PatientUpdate)
    (h : u.given.isSome ∨ u.family.isSome) :
    ∃ entry : NameEntry,
      (applyUpdate e u.given u.family u.gender u.birthDate
        (toPhoneField u.phone)).name = some [entry] ∧
      entry.use = (firstNameOrEmpty e).use ∧
      entry.given = (match u.given with
        | some g => some [g]
        | none => (firstNameOrEmpty e).given) ∧
      entry.family = (match u.family with
        | some f => some f
        | none => (firstNameOrEmpty e).family) := by
  obtain ⟨ug, uf, ugd, ubd, up⟩ := u
  dsimp only at h ⊢
  unfold applyUpdate firstNameOrEmpty
  cases ug <;> cases uf <;> cases ugd <;> cases ubd <;> cases up <;>
    simp_all [toPhoneField]

/-- Witness for C6 at a patch setting only the given name over a resource
with two name entries. -/
theorem update_name_collapses_to_single_witness :
    ∃ entry : NameEntry,
      (applyUpdate
          { resourceType := some "Patient", id := some "p3", identifier := none,
            name := some [{ use := some "official", family := some "Doe",
                            given := some ["Jo"] },
                          { use := some "maiden", family := some "Roe",
                            given := some ["J"] }],
            gender := none, birthDate := none, telecom := none,
            meta := none, extra := [] }
          (some "Ann") none none none (toPhoneField none)).name = some [entry] ∧
      entry.use = (firstNameOrEmpty
          { resourceType := some "Patient", id := some "p3", identifier := none,
            name := some [{ use := some "official", family := some "Doe",
                            given := some ["Jo"] },
                          { use := some "maiden", family := some "Roe",
                            given := some ["J"] }],
            gender := none, birthDate := none, telecom := none,
            meta := none, extra := [] }).use ∧
      entry.given = some ["Ann"] ∧
      entry.family = some "Doe" :=
  update_name_collapses_to_single
    { resourceType := some "Patient", id := some "p3", identifier := none,
      name := some [{ use := some "official", family := some "Doe",
                      given := some ["Jo"] },
                    { use := some "maiden", family := some "Roe",
                      given := some ["J"] }],
      gender := none, birthDate := none, telecom := none,
      meta := none, extra := [] }
    { given := some "Ann", family := none, gender := none, birthDate := none,
      phone := none }
    (Or.inl rfl)

/-- C8: a search with none of the name, phone and identifier filters behaves
identically to a list with the same sort directive and base-URL override: the
same resolved base URL, the same query parameters (page size 15, same sort
parameter), and the same mapped summaries for the same remote bundle. -/
theorem search_no_filters_eq_list (fhir_server_url sort : Option String)
    (bundle : Bundle) :
    search_patients none none none fhir_server_url sort bundle =
      list_patients fhir_server_url sort bundle := by
  simp [search_patients, list_patients, pyTruthyStr]

/-- C9: extract_patient_summary treats a bundle-entry wrapper and the bare
resource alike, returns null exactly when the resource type tag is not
"Patient", and — when a first identifier entry exists — prefers its value,
then its id, then the resource's own id (Python truthiness: null and the
empty string both fall through). -/
theorem extract_summary_wrapper_and_identifier (r : Patient) :
    extract_patient_summary (.entry (some r)) = extract_patient_summary (.bare r) ∧
    extract_patient_summary (.entry none) = none ∧
    (extract_patient_summary (.bare r) = none ↔ r.resourceType ≠ some "Patient") ∧
    (∀ s i rest, extract_patient_summary (.bare r) = some s →
      r.identifier.getD [] = i :: rest →
      s.identifier = pyOrStr i.value (pyOrStr i.id r.id)) := by
  refine ⟨rfl, rfl, ?_, ?_⟩
  · unfold extract_patient_summary extractRes
    by_cases ht : r.resourceType = some "Patient" <;> simp [ht]
  · intro s i rest hs hident
    unfold extract_patient_summary extractRes at hs
    by_cases ht : r.resourceType = some "Patient"
    · simp only [ht, ne_eq, not_true_eq_false, if_false] at hs
      rw [hident] at hs
      cases hs
      rfl
    · simp [ht] at hs

/-- Witness for C9's identifier clause at a resource whose first identifier
has an empty value and a non-empty id. -/
theorem extract_summary_identifier_witness :
    ∀ s : PatientSummary,
      extract_patient_summary (.bare
        { resourceType := some "Patient", id := some "res-id", identifier :=
            some [{ value := some "", id := some "ident-id" }],
          name := none, gender := none, birthDate := none, telecom := none,
          meta := none, extra := [] }) = some s →
      s.identifier = some "ident-id" := by
  intro s hs
  have h := (extract_summary_wrapper_and_identifier
    { resourceType := some "Patient", id := some "res-id", identifier :=
        some [{ value := some "", id := some "ident-id" }],
      name := none, gender := none, birthDate := none, telecom := none,
      meta := none, extra := [] }).2.2.2 s
    { value := some "", id := some "ident-id" } [] hs rfl
  simpa [pyOrStr, pyTruthyStr] using h

/-- C4: extracting the summary of a freshly built resource round-trips the
create fields — given, family and birthDate come back verbatim, gender comes
back lowercased, and phone comes back as its decimal string (null when
absent). -/
theorem build_extract_roundtrip (given family gender birthDate : String)
    (phone : Option Int)
    (hg1 : pyStrip given = given) (hg2 : given ≠ "")
    (hf1 : pyStrip family = family) (hf2 : family ≠ "")
    (hgd1 : pyStrip gender = gender) (hgd2 : gender ≠ "")
    (hbd1 : pyStrip birthDate = birthDate) (hbd2 : birthDate ≠ "") :
    extract_patient_summary
        (.bare (build_patient_resource given family gender birthDate phone)) =
      some { id := "", identifier := none, given := some given,
             family := some family, gender := some (pyLower gender),
             birthDate := some birthDate,
             phone := phone.map (fun p => toString p), lastUpdated := none } := by
  unfold extract_patient_summary extractRes build_patient_resource
  cases phone with
  | none => simp [hg1, hf1, hf2, findPhoneVal]
  | some p => simp [hg1, hf1, hf2, findPhoneVal, pyTruthyStr_toString p]

/-- Witness for C4 at concrete create fields with a phone. -/
theorem build_extract_roundtrip_witness :
    extract_patient_summary
        (.bare (build_patient_resource "John" "Doe" "Male" "1990-01-01"
          (some 12345))) =
      some { id := "", identifier := none, given := some "John",
             family := some "Doe", gender := some (pyLower "Male"),
             birthDate := some "1990-01-01",
             phone := (some (12345 : Int)).map (fun p => toString p),
             lastUpdated := none } :=
  build_extract_roundtrip "John" "Doe" "Male" "1990-01-01" (some 12345)
    rfl (by decide) rfl (by decide) rfl (by decide) rfl (by decide)

/-- C7: an update whose fetched target is missing (falsy body) or not a
Patient fails with the 404 "Patient not found" error, and the model reaches
`.ok` — i.e. issues the mutating PUT, whose body it returns — only when the
fetch produced a Patient, the birthdate gate (when birthDate is patched) and
the schema gate passed; the PUT body is then exactly the merged resource. -/
theorem update_404_and_put_gating (today : PyDate) (u : PatientUpdate)
    (sc : Patient → Option HTTPError) (r : Patient) :
    update_patient today (.success none) u sc = .error ⟨404, "Patient not found"⟩ ∧
    (r.resourceType ≠ some "Patient" →
      update_patient today (.success (some r)) u sc =
        .error ⟨404, "Patient not found"⟩) ∧
    (∀ merged, update_patient today (.success (some r)) u sc = .ok merged →
      r.resourceType = some "Patient" ∧
      (∀ bd, u.birthDate = some bd →
        validate_birthdate_not_future today bd = .ok ()) ∧
      sc merged = none ∧
      merged = applyUpdate r u.given u.family u.gender u.birthDate
        (toPhoneField u.phone)) := by
  refine ⟨rfl, fun ht => ?_, fun merged hm => ?_⟩
  · simp [update_patient, fhir_request_outcome, ht]
  · unfold update_patient fhir_request_outcome at hm
    by_cases ht : r.resourceType = some "Patient"
    · simp only [ht, ne_eq, not_true_eq_false, if_false] at hm
      refine ⟨ht, ?_⟩
      cases hbd : u.birthDate with
      | none =>
        simp only [hbd] at hm
        cases hsc : sc (applyUpdate r u.given u.family u.gender none
            (toPhoneField u.phone)) <;> rw [hsc] at hm
        · cases hm
          exact ⟨fun bd h => Option.noConfusion h, hsc, rfl⟩
        · cases hm
      | some bd =>
        simp only [hbd] at hm
        cases hv : validate_birthdate_not_future today bd with
        | error e => simp [hv] at hm
        | ok v =>
          simp only [hv] at hm
          cases hsc : sc (applyUpdate r u.given u.family u.gender (some bd)
              (toPhoneField u.phone)) <;> rw [hsc] at hm
          · cases hm
            refine ⟨fun bd2 h2 => ?_, hsc, rfl⟩
            cases h2
            exact hv
          · cases hm
    · simp [ht] at hm

/-- Witness for C7: the non-Patient 404 arm and the gating arm at concrete
inputs. -/
theorem update_404_and_put_gating_witness :
    update_patient ⟨2025, 10, 12⟩
        (.success (some
          { resourceType := some "Observation", id := some "x", identifier := none,
            name := none, gender := none, birthDate := none, telecom := none,
            meta := none, extra := [] }))
        { given := none, family := none, gender := none, birthDate := none,
          phone := none }
        (fun _ => none) = .error ⟨404, "Patient not found"⟩ :=
  (update_404_and_put_gating ⟨2025, 10, 12⟩
    { given := none, family := none, gender := none, birthDate := none,
      phone := none }
    (fun _ => none)
    { resourceType := some "Observation", id := some "x", identifier := none,
      name := none, gender := none, birthDate := none, telecom := none,
      meta := none, extra := [] }).2.1 (by simp)

/-- C10: when every validation gate passes on a create, a non-2xx remote
response makes the operation fail with the same upstream status code, and a
transport-level failure makes it fail with status 502. -/
theorem create_upstream_error_passthrough (today : PyDate) (payload : PatientCreate)
    (sc : Patient → Option HTTPError) (s : Nat)
    (hgate : validate_birthdate_not_future today payload.birthDate = .ok ())
    (hschema : sc (build_patient_resource payload.given payload.family
      payload.gender payload.birthDate (some payload.phone)) = none) :
    create_patient today payload sc (.httpError s) =
        .error ⟨s, "FHIR request failed"⟩ ∧
    create_patient today payload sc .transportError =
        .error ⟨502, "FHIR connection error"⟩ := by
  constructor <;> simp [create_patient, hgate, hschema, fhir_request_outcome]

/-- Witness for C10 at a concrete payload, with the schema gate passing and
a 409 upstream status. -/
theorem create_upstream_error_passthrough_witness :
    create_patient ⟨2025, 10, 12⟩
        { given := "John", family := "Doe", gender := "Male",
          birthDate := "1990-01-01", phone := 12345 }
        (fun _ => none) (.httpError 409) = .error ⟨409, "FHIR request failed"⟩ ∧
    create_patient ⟨2025, 10, 12⟩
        { given := "John", family := "Doe", gender := "Male",
          birthDate := "1990-01-01", phone := 12345 }
        (fun _ => none) .transportError = .error ⟨502, "FHIR connection error"⟩ :=
  create_upstream_error_passthrough ⟨2025, 10, 12⟩
    { given := "John", family := "Doe", gender := "Male",
      birthDate := "1990-01-01", phone := 12345 }
    (fun _ => none) 409 rfl rfl

/-- C3: the birthdate gate raises exactly the 422 error "Date of Birth
cannot be in the future." if and only if the input splits on "-" into
exactly three int-parseable parts forming a valid calendar date strictly
after today; every other string passes silently, every raised error is that
fixed one, and a date equal to today is accepted. -/
theorem birthdate_gate_iff (today : PyDate) (s : String) :
    (validate_birthdate_not_future today s =
        .error ⟨422, "Date of Birth cannot be in the future."⟩ ↔
      ∃ a b c y m d, pySplitDash s = [a, b, c] ∧ pyInt a = some y ∧
        pyInt b = some m ∧ pyInt c = some d ∧ validDate y m d = true ∧
        dateLt today ⟨y, m, d⟩ = true) ∧
    (∀ e, validate_birthdate_not_future today s = .error e →
      e = ⟨422, "Date of Birth cannot be in the future."⟩) ∧
    (∀ a b c, pySplitDash s = [a, b, c] → pyInt a = some today.year →
      pyInt b = some today.month → pyInt c = some today.day →
      validate_birthdate_not_future today s = .ok ()) := by
  refine ⟨⟨?_, ?_⟩, ?_, ?_⟩
  · intro h
    unfold validate_birthdate_not_future at h
    cases hp : pyIntList (pySplitDash s) with
    | none => rw [hp] at h; cases h
    | some parts =>
      rw [hp] at h
      match parts, h with
      | [y, m, d], h =>
        by_cases hv : validDate y m d = true
        · by_cases hlt : dateLt today ⟨y, m, d⟩ = true
          · obtain ⟨a, b, c, hsplit, ha, hb, hc⟩ := pyIntList_eq_some_three _ y m d hp
            exact ⟨a, b, c, y, m, d, hsplit, ha, hb, hc, hv, hlt⟩
          · simp [hv, hlt] at h
        · simp [hv] at h
  · rintro ⟨a, b, c, y, m, d, hsplit, ha, hb, hc, hv, hlt⟩
    unfold validate_birthdate_not_future
    rw [hsplit]
    have hl : pyIntList [a, b, c] = some [y, m, d] := by
      simp [pyIntList, ha, hb, hc]
    rw [hl]
    simp [hv, hlt]
  · intro e h
    unfold validate_birthdate_not_future at h
    cases hp : pyIntList (pySplitDash s) with
    | none => rw [hp] at h; cases h
    | some parts =>
      rw [hp] at h
      match parts, h with
      | [y, m, d], h =>
        by_cases hv : validDate y m d = true
        · by_cases hlt : dateLt today ⟨y, m, d⟩ = true
          · simp [hv, hlt] at h
            exact h.symm
          · simp [hv, hlt] at h
        · simp [hv] at h
  · intro a b c hsplit ha hb hc
    unfold validate_birthdate_not_future
    rw [hsplit]
    have hl : pyIntList [a, b, c] = some [today.year, today.month, today.day] := by
      simp [pyIntList, ha, hb, hc]
    rw [hl]
    simp [dateLt_irrefl today]

/-- Witness for C3: a strictly future date raises the fixed 422 error and
the current date itself passes. -/
theorem birthdate_gate_iff_witness :
    validate_birthdate_not_future ⟨2025, 10, 12⟩ "2099-01-01" =
        .error ⟨422, "Date of Birth cannot be in the future."⟩ ∧
    validate_birthdate_not_future ⟨2025, 10, 12⟩ "2025-10-12" = .ok () :=
  ⟨(birthdate_gate_iff ⟨2025, 10, 12⟩ "2099-01-01").1.mpr
      ⟨"2099", "01", "01", 2099, 1, 1, rfl, rfl, rfl, rfl, rfl, rfl⟩,
   (birthdate_gate_iff ⟨2025, 10, 12⟩ "2025-10-12").2.2 "2025" "10" "12"
     rfl rfl rfl rfl⟩

end PatientApp
